import Mathlib

/-!
Verification development for the k8-replica-manager service.

The Go sources are shallowly embedded below:
* `internal/kube/manager.go` — the replica cache (`map[string]int32` modelled
  as an association list with the usual Go map operations), the informer
  event handlers `onAddOrUpdate` / `onDelete`, the readiness flag, and the
  read/write methods `ListDeployments`, `GetReplicas`, `SetReplicas`, `Ping`.
* `internal/api/handlers.go` — the HTTP handlers `handleReadyz`,
  `handleListDeployments`, `handleGetReplicas`, `handleSetReplicas`.
* `internal/api/server.go` — `buildTLSConfig`.

Cluster I/O (the Kubernetes patch / list calls) and request-body decoding are
external effects; they enter the embedded functions as explicit outcome
parameters, so each embedded function is the pure core of the corresponding
Go function.
-/

set_option autoImplicit false

namespace ReplicaManager

/-! ## The replica cache: Go `map[string]int32`

`Manager.replicas` is a Go map from deployment name to desired replica
count.  We embed it as an association list; `mapGet`, `mapInsert` and
`mapErase` are the Go primitives `v, ok := m[k]`, `m[k] = v` and
`delete(m, k)`.  A map built by the Go runtime never holds a key twice,
which is the well-formedness predicate `WF`. -/

abbrev ReplicaMap := List (String × Int)

/-- Go `v, ok := m[k]` (the value half; `none` corresponds to `ok = false`). -/
def mapGet (m : ReplicaMap) (k : String) : Option Int :=
  match m with
  | [] => none
  | (k₀, v) :: rest => if k₀ = k then some v else mapGet rest k

/-- Go `m[k] = v`: replace the binding of `k` if present, otherwise add it. -/
def mapInsert (m : ReplicaMap) (k : String) (v : Int) : ReplicaMap :=
  match m with
  | [] => [(k, v)]
  | (k₀, v₀) :: rest =>
    if k₀ = k then (k, v) :: rest else (k₀, v₀) :: mapInsert rest k v

/-- Go `delete(m, k)`: remove the binding of `k` if present. -/
def mapErase (m : ReplicaMap) (k : String) : ReplicaMap :=
  match m with
  | [] => []
  | (k₀, v₀) :: rest =>
    if k₀ = k then rest else (k₀, v₀) :: mapErase rest k

/-- The key set of the cache, as produced by ranging over the Go map. -/
def keysOf (m : ReplicaMap) : List String := m.map Prod.fst

/-- A Go map never binds a key twice. -/
def WF (m : ReplicaMap) : Prop := (keysOf m).Nodup

instance (m : ReplicaMap) : Decidable (WF m) := by
  unfold WF; infer_instance

/-! ## Event reconciler: `Manager.onAddOrUpdate` / `Manager.onDelete` -/

/-- The part of a `*appsv1.Deployment` the manager reads: `d.Name` and
`d.Spec.Replicas` (a nullable `*int32`). -/
structure DeploymentObj where
  name : String
  specReplicas : Option Int
deriving DecidableEq, Repr

/-- `Manager.onAddOrUpdate`: the informer passes `obj any`; the type
assertion failing or a nil pointer (`none` here) drops the event.  A nil
`Spec.Replicas` is read as 0. -/
def onAddOrUpdate (m : ReplicaMap) (obj : Option DeploymentObj) : ReplicaMap :=
  match obj with
  | none => m
  | some d => mapInsert m d.name (d.specReplicas.getD 0)

/-- What a delete notification can carry: a Deployment, a
`cache.DeletedFinalStateUnknown` tombstone (whose inner object may or may
not be a Deployment), or some other object. -/
inductive DeleteNotification where
  | deployment (d : DeploymentObj)
  | tombstone (obj : Option DeploymentObj)
  | other
deriving DecidableEq, Repr

/-- `Manager.onDelete`: unwrap a tombstone if needed; drop the event when no
Deployment can be recovered; otherwise erase the name from the cache. -/
def onDelete (m : ReplicaMap) (ev : DeleteNotification) : ReplicaMap :=
  match ev with
  | .deployment d => mapErase m d.name
  | .tombstone (some d) => mapErase m d.name
  | .tombstone none => m
  | .other => m

/-! ## Manager state and the readiness flag

`Manager` holds the cache and the boolean `ready`, false at construction
(`NewManager` allocates it zero-valued).  The only writes to the state are
the informer callbacks and the background sync waiter, which sets `ready`
to true when `cache.WaitForCacheSync` succeeds and leaves it untouched
(just logs) when the wait is aborted.  `stepManager` enumerates exactly
these writes. -/

structure ManagerState where
  replicas : ReplicaMap
  ready : Bool
deriving DecidableEq, Repr

/-- State of a freshly constructed `Manager` (`NewManager`). -/
def initialManagerState : ManagerState := { replicas := [], ready := false }

/-- The events that mutate a `Manager`: informer callbacks, a successful
`WaitForCacheSync`, or an aborted sync wait (which only logs). -/
inductive ManagerEvent where
  | add (obj : Option DeploymentObj)
  | update (obj : Option DeploymentObj)
  | del (ev : DeleteNotification)
  | syncComplete
  | syncAborted
deriving DecidableEq, Repr

def stepManager (s : ManagerState) (e : ManagerEvent) : ManagerState :=
  match e with
  | .add obj => { s with replicas := onAddOrUpdate s.replicas obj }
  | .update obj => { s with replicas := onAddOrUpdate s.replicas obj }
  | .del ev => { s with replicas := onDelete s.replicas ev }
  | .syncComplete => { s with ready := true }
  | .syncAborted => s

def runManager (s : ManagerState) (es : List ManagerEvent) : ManagerState :=
  es.foldl stepManager s

/-- `Manager.Ready`. -/
def Ready (s : ManagerState) : Bool := s.ready

/-! ## Manager read/write methods -/

/-- `Manager.ListDeployments`: cache keys, always a nil error. -/
def ListDeployments (m : ReplicaMap) : List String × Option String :=
  (keysOf m, none)

/-- `Manager.GetReplicas`: cached lookup `(replicas, found, err)`; the Go
zero value of `int32` stands in when the key is absent, and the error is
always nil. -/
def GetReplicas (m : ReplicaMap) (name : String) : Int × Bool × Option String :=
  match mapGet m name with
  | some v => (v, true, none)
  | none => (0, false, none)

/-- `Manager.SetReplicas`: reject negative counts, otherwise send a merge
patch for `spec.replicas` to the cluster.  The cluster call is external, so
its outcome is the `patch` parameter; the function returns the Go error
(`none` = nil) together with the cache, which it never touches. -/
def SetReplicas (cache : ReplicaMap) (_name : String) (replicas : Int)
    (patch : Except String Unit) : Option String × ReplicaMap :=
  if replicas < 0 then
    (some "replicas must be >= 0", cache)
  else
    match patch with
    | .error e => (some ("patch deployment replicas: " ++ e), cache)
    | .ok _ => (none, cache)

/-- `Manager.Ping`: a limit-1 list call against the cluster; the network
outcome is the parameter, the wrapped error (or nil) is returned. -/
def Ping (listOutcome : Except String Unit) : Option String :=
  match listOutcome with
  | .error e => some ("kubernetes connectivity check failed: " ++ e)
  | .ok _ => none

/-! ## HTTP layer: `internal/api/handlers.go`

Response bodies are modelled structurally: `text` is `http.Error` plain
text, and the other constructors are the JSON payloads the handlers encode
with `writeJSON`. -/

inductive RespBody where
  | text (msg : String)
  | statusJson (status : String)
  | replicasJson (name : String) (replicas : Int)
  | deploymentsJson (names : List String)
deriving DecidableEq, Repr

structure HttpResponse where
  status : Nat
  body : RespBody
deriving DecidableEq, Repr

/-- `Server.handleReadyz`: 503 when no store is configured, 503 while the
cache has not synced, then — when the store implements `Ping` — 503 on a
failed connectivity probe; 200 otherwise.  The probe runs (with a fresh
bounded timeout) on every call, so its outcome is a per-call parameter. -/
def handleReadyz (storeConfigured ready hasPinger : Bool)
    (pingErr : Option String) : HttpResponse :=
  if !storeConfigured then
    { status := 503, body := .text "store not configured" }
  else if !ready then
    { status := 503, body := .text "cache not synced" }
  else if hasPinger then
    match pingErr with
    | some e => { status := 503, body := .text e }
    | none => { status := 200, body := .statusJson "ready" }
  else
    { status := 200, body := .statusJson "ready" }

/-- `Server.handleListDeployments`: 500 on a store error, otherwise the
names sorted ascending. -/
def handleListDeployments (res : List String × Option String) : HttpResponse :=
  match res.2 with
  | some e => { status := 500, body := .text e }
  | none =>
    { status := 200, body := .deploymentsJson (res.1.insertionSort (· ≤ ·)) }

/-- `Server.handleGetReplicas`: 500 on a store error, 404 when the store
reports the name unknown, otherwise 200 with the cached pair. -/
def handleGetReplicas (name : String) (res : Int × Bool × Option String) :
    HttpResponse :=
  match res with
  | (_, _, some e) => { status := 500, body := .text e }
  | (_, false, none) => { status := 404, body := .text "deployment not found" }
  | (rep, true, none) => { status := 200, body := .replicasJson name rep }

/-- The observable outcomes of decoding a request body with
`json.NewDecoder(r.Body)` plus `DisallowUnknownFields` on a
`setReplicasRequest`: a syntactically or structurally bad first value, a
first value with an unknown object field, or a successfully decoded first
value together with whether any data (JSON or junk) remains after it. -/
inductive RequestBody where
  | malformed
  | unknownField
  | value (replicas : Int) (hasTrailingData : Bool)
deriving DecidableEq, Repr

/-- The first `dec.Decode(&req)` in `handleSetReplicas`: Go's
`json.Decoder.Decode` parses exactly one value from the stream, leaving
anything after it unread. -/
def decodeSetReplicasRequest (b : RequestBody) : Except String Int :=
  match b with
  | .malformed => .error "invalid character"
  | .unknownField => .error "unknown field"
  | .value r _ => .ok r

/-- The handler's trailing-junk check: after the first value decodes, a
second `dec.Decode` into an empty struct must report `io.EOF`.  Any
remaining data — a further JSON value or junk bytes — makes that second
call return something other than `io.EOF`. -/
def hasTrailingJunk (b : RequestBody) : Bool :=
  match b with
  | .value _ trailing => trailing
  | _ => false

/-- What `s.store.SetReplicas` reported back, classified the way the
handler does with `apierrors.IsNotFound`. -/
inductive ClusterSetOutcome where
  | accepted
  | notFound
  | otherError (msg : String)
deriving DecidableEq, Repr

/-- `Server.handleSetReplicas`: 400 on a decode error, 400 when the second
`Decode` does not report `io.EOF` (trailing junk after the first JSON
value), 400 on a negative count — all before any store call — then
404 / 500 / 200 from the store outcome.  The boolean records whether
`store.SetReplicas` was called. -/
def handleSetReplicas (_name : String) (body : RequestBody)
    (cluster : ClusterSetOutcome) : HttpResponse × Bool :=
  match decodeSetReplicasRequest body with
  | .error _ => ({ status := 400, body := .text "invalid json body" }, false)
  | .ok r =>
    if hasTrailingJunk body then
      ({ status := 400, body := .text "invalid json body" }, false)
    else if r < 0 then
      ({ status := 400, body := .text "replicas must be >= 0" }, false)
    else
      match cluster with
      | .notFound =>
        ({ status := 404, body := .text "deployment not found" }, true)
      | .otherError e => ({ status := 500, body := .text e }, true)
      | .accepted => ({ status := 200, body := .statusJson "updated" }, true)

/-! ## TLS layer: `Server.buildTLSConfig` (`internal/api/server.go`) -/

/-- Go `tls.ClientAuthType`. -/
inductive ClientAuthType where
  | noClientCert
  | requestClientCert
  | requireAnyClientCert
  | verifyClientCertIfGiven
  | requireAndVerifyClientCert
deriving DecidableEq, Repr

/-- Go `tls.VersionTLS12`. -/
def versionTLS12 : Nat := 0x0303

/-- The fields of `tls.Config` that `buildTLSConfig` sets.  Certificates
and CA-pool entries are abstracted to identifiers: a pool is the list of CA
identities it holds. -/
structure TLSConfig where
  minVersion : Nat
  hasServerCert : Bool
  clientCAs : List String
  clientAuth : ClientAuthType
deriving DecidableEq, Repr

/-- Outcomes of the three loading steps in `buildTLSConfig`:
`tls.LoadX509KeyPair`, `os.ReadFile` of the client-CA bundle, and the CA
certificates `AppendCertsFromPEM` extracts from that bundle. -/
structure TLSBuildInputs where
  keyPairOk : Bool
  caFileOk : Bool
  caCerts : List String
deriving DecidableEq, Repr

/-- `Server.buildTLSConfig`: fail on an unloadable key pair, an unreadable
CA file, or a bundle with no certificates; otherwise a config with
`MinVersion = VersionTLS12` and `ClientAuth = RequireAndVerifyClientCert`. -/
def buildTLSConfig (i : TLSBuildInputs) : Except String TLSConfig :=
  if !i.keyPairOk then .error "load server cert/key"
  else if !i.caFileOk then .error "read client CA"
  else if i.caCerts.isEmpty then .error "parse client CA: no certs found"
  else .ok { minVersion := versionTLS12
             hasServerCert := true
             clientCAs := i.caCerts
             clientAuth := .requireAndVerifyClientCert }

/-- A client handshake attempt: offered protocol version and the CA the
presented client certificate chains to (`none` = no certificate). -/
structure ClientHello where
  version : Nat
  clientCert : Option String
deriving DecidableEq, Repr

/-- Modelled from the spec: the handshake behavior of the transport TLS
library (Go `crypto/tls`), which is outside this repository.  The spec:
the handshake requires protocol version at least the configured minimum;
with `RequireAndVerifyClientCert`, it fails closed when the peer presents
no certificate or one not chaining to the configured trust root. -/
def handshakeAccepts (cfg : TLSConfig) (h : ClientHello) : Bool :=
  if h.version < cfg.minVersion then false
  else if !cfg.hasServerCert then false
  else
    match cfg.clientAuth with
    | .requireAndVerifyClientCert =>
      match h.clientCert with
      | none => false
      | some ca => decide (ca ∈ cfg.clientCAs)
    | _ => true

/-- Modelled from the spec: handshake failures terminate the connection
before any HTTP request is parsed, so a request yields an HTTP response
exactly when the handshake succeeds. -/
def tlsServe (cfg : TLSConfig) (h : ClientHello) (resp : HttpResponse) :
    Option HttpResponse :=
  if handshakeAccepts cfg h then some resp else none

/-! ## Basic cache lemmas -/

theorem keysOf_cons (p : String × Int) (rest : ReplicaMap) :
    keysOf (p :: rest) = p.1 :: keysOf rest := rfl

theorem mapGet_mapInsert_self (m : ReplicaMap) (k : String) (v : Int) :
    mapGet (mapInsert m k v) k = some v := by
  induction m with
  | nil => simp [mapInsert, mapGet]
  | cons p rest ih =>
    obtain ⟨k₀, v₀⟩ := p
    by_cases hk : k₀ = k
    · subst hk; simp [mapInsert, mapGet]
    · simp [mapInsert, hk, mapGet, ih]

theorem mapInsert_mapInsert_self (m : ReplicaMap) (k : String) (v : Int) :
    mapInsert (mapInsert m k v) k v = mapInsert m k v := by
  induction m with
  | nil => simp [mapInsert]
  | cons p rest ih =>
    obtain ⟨k₀, v₀⟩ := p
    by_cases hk : k₀ = k
    · subst hk; simp [mapInsert]
    · simp [mapInsert, hk, ih]

theorem mapGet_eq_none_of_not_mem (m : ReplicaMap) (k : String)
    (h : k ∉ keysOf m) : mapGet m k = none := by
  induction m with
  | nil => rfl
  | cons p rest ih =>
    obtain ⟨k₀, v₀⟩ := p
    rw [keysOf_cons] at h
    simp only [List.mem_cons, not_or] at h
    have hne : ¬ k₀ = k := fun hh => h.1 hh.symm
    simp [mapGet, hne, ih h.2]

theorem mapGet_mapErase_self (m : ReplicaMap) (k : String) (h : WF m) :
    mapGet (mapErase m k) k = none := by
  induction m with
  | nil => rfl
  | cons p rest ih =>
    obtain ⟨k₀, v₀⟩ := p
    rw [WF, keysOf_cons, List.nodup_cons] at h
    by_cases hk : k₀ = k
    · subst hk
      simp only [mapErase, if_pos rfl]
      exact mapGet_eq_none_of_not_mem rest k₀ h.1
    · simp [mapErase, hk, mapGet, ih h.2]

theorem mapErase_eq_of_get_none (m : ReplicaMap) (k : String)
    (h : mapGet m k = none) : mapErase m k = m := by
  induction m with
  | nil => rfl
  | cons p rest ih =>
    obtain ⟨k₀, v₀⟩ := p
    by_cases hk : k₀ = k
    · subst hk; simp [mapGet] at h
    · simp only [mapGet, if_neg hk] at h
      simp [mapErase, hk, ih h]

/-- The upsert half of `onAddOrUpdate` folded over a list of replica values
for one key, in delivery order. -/
def applyUpserts (m : ReplicaMap) (name : String) (vs : List Int) : ReplicaMap :=
  vs.foldl (fun acc v => mapInsert acc name v) m

theorem mapGet_applyUpserts (name : String) :
    ∀ (vs : List Int) (v : Int), vs.getLast? = some v →
      ∀ (m : ReplicaMap), mapGet (applyUpserts m name vs) name = some v := by
  intro vs
  induction vs with
  | nil => intro v hv m; simp at hv
  | cons w rest ih =>
    intro v hv m
    cases rest with
    | nil =>
      simp [List.getLast?] at hv
      subst hv
      simp [applyUpserts, mapGet_mapInsert_self]
    | cons w₂ rest₂ =>
      rw [List.getLast?_cons_cons] at hv
      exact ih v hv (mapInsert m name w)

/-! ## Claim theorems -/

/-- Claim C1: for any key, applying upserts with replica values v₁,…,vₙ in
delivery order makes a subsequent get of the key return vₙ with found=true
(and a nil error); and applying the same upsert event twice leaves the
store in the same state as applying it once. -/
theorem upsert_last_write_wins_and_idempotent :
    (∀ (m : ReplicaMap) (name : String) (vs : List Int) (v : Int),
        vs.getLast? = some v →
        GetReplicas (applyUpserts m name vs) name = (v, true, none)) ∧
    (∀ (m : ReplicaMap) (obj : Option DeploymentObj),
        onAddOrUpdate (onAddOrUpdate m obj) obj = onAddOrUpdate m obj) := by
  constructor
  · intro m name vs v hv
    have h := mapGet_applyUpserts name vs v hv m
    simp [GetReplicas, h]
  · intro m obj
    cases obj with
    | none => rfl
    | some d => simp [onAddOrUpdate, mapInsert_mapInsert_self]

theorem upsert_last_write_wins_and_idempotent_witness :
    GetReplicas (applyUpserts [] "frontend" [1, 2, 3]) "frontend" =
      (3, true, none) :=
  upsert_last_write_wins_and_idempotent.1 [] "frontend" [1, 2, 3] 3 rfl

/-- Claim C2: `SetReplicas` never modifies the cached replica map, whether
it succeeds or fails; it returns success (a nil error) exactly when the
requested count is non-negative and the cluster accepted the patch. -/
theorem set_replicas_never_touches_cache :
    (∀ (cache : ReplicaMap) (name : String) (r : Int)
        (patch : Except String Unit),
        (SetReplicas cache name r patch).2 = cache) ∧
    (∀ (cache : ReplicaMap) (name : String) (r : Int)
        (patch : Except String Unit),
        (SetReplicas cache name r patch).1 = none ↔
          0 ≤ r ∧ patch = Except.ok ()) := by
  constructor
  · intro cache name r patch
    by_cases hr : r < 0
    · simp [SetReplicas, hr]
    · cases patch <;> simp [SetReplicas, hr]
  · intro cache name r patch
    by_cases hr : r < 0
    · simp [SetReplicas, hr]
    · cases patch with
      | error e => simp [SetReplicas, hr]
      | ok u => cases u; simp [SetReplicas, hr]; omega

theorem set_replicas_never_touches_cache_witness :
    (SetReplicas [("frontend", 3)] "frontend" 5 (Except.ok ())).2 =
      [("frontend", 3)] :=
  set_replicas_never_touches_cache.1 [("frontend", 3)] "frontend" 5
    (Except.ok ())

theorem stepManager_preserves_ready (s : ManagerState) (e : ManagerEvent)
    (h : s.ready = true) : (stepManager s e).ready = true := by
  cases e <;> simp [stepManager, h]

/-- Claim C5: the ready flag starts false at construction and is monotone —
once `Ready` returns true, it returns true after any further sequence of
manager events (informer callbacks, aborted sync waits), never reverting
to false. -/
theorem ready_monotonic :
    initialManagerState.ready = false ∧
    ∀ (s : ManagerState) (es : List ManagerEvent),
      Ready s = true → Ready (runManager s es) = true := by
  refine ⟨rfl, ?_⟩
  intro s es
  induction es generalizing s with
  | nil => intro h; exact h
  | cons e rest ih =>
    intro h
    exact ih (stepManager s e) (stepManager_preserves_ready s e h)

theorem ready_monotonic_witness :
    Ready (runManager { replicas := [], ready := true }
      [ManagerEvent.syncAborted, ManagerEvent.del DeleteNotification.other]) =
      true :=
  ready_monotonic.2 { replicas := [], ready := true }
    [ManagerEvent.syncAborted, ManagerEvent.del DeleteNotification.other] rfl

/-- Claim C8: after a delete event for a name, a get of that name reports
not-found — even if the name was never present — and erasing an absent key
is a no-op that leaves the store unchanged. -/
theorem delete_removes_and_idempotent :
    (∀ (m : ReplicaMap) (d : DeploymentObj), WF m →
        GetReplicas (onDelete m (.deployment d)) d.name = (0, false, none)) ∧
    (∀ (m : ReplicaMap) (name : String),
        mapGet m name = none → mapErase m name = m) := by
  constructor
  · intro m d hwf
    simp [onDelete, GetReplicas, mapGet_mapErase_self m d.name hwf]
  · exact mapErase_eq_of_get_none

theorem delete_removes_and_idempotent_witness :
    GetReplicas
        (onDelete [] (.deployment { name := "ghost", specReplicas := none }))
        "ghost" = (0, false, none) ∧
    mapErase [("frontend", 3)] "ghost" = [("frontend", 3)] :=
  ⟨delete_removes_and_idempotent.1 []
      { name := "ghost", specReplicas := none } (by decide),
   delete_removes_and_idempotent.2 [("frontend", 3)] "ghost" rfl⟩

/-- Claim C9: an Add/Update notification whose Deployment carries a nil
desired-replica field is applied as an upsert with value 0, so a
subsequent get of that name returns 0 with found=true. -/
theorem nil_replicas_treated_as_zero :
    ∀ (m : ReplicaMap) (name : String),
      onAddOrUpdate m (some { name := name, specReplicas := none }) =
        mapInsert m name 0 ∧
      GetReplicas
          (onAddOrUpdate m (some { name := name, specReplicas := none }))
          name = (0, true, none) := by
  intro m name
  refine ⟨rfl, ?_⟩
  simp [onAddOrUpdate, GetReplicas, mapGet_mapInsert_self]

/-- Claim C10: the manager-backed read paths always report a nil error, so
the 500 branches of the list and get handlers can never fire when the
server is backed by the manager. -/
theorem manager_reads_never_500 :
    ∀ (m : ReplicaMap) (name : String),
      (ListDeployments m).2 = none ∧
      (GetReplicas m name).2.2 = none ∧
      (handleListDeployments (ListDeployments m)).status = 200 ∧
      (handleGetReplicas name (GetReplicas m name)).status ≠ 500 := by
  intro m name
  refine ⟨rfl, ?_, rfl, ?_⟩
  · unfold GetReplicas
    cases mapGet m name <;> rfl
  · unfold handleGetReplicas GetReplicas
    cases mapGet m name <;> simp

/-- Claim C4: with a configured store, readyz answers 503 whenever the
sync flag is false; with a store that implements the connectivity probe
(the manager does), it answers 200 with status "ready" exactly when the
sync flag is true and this query's probe succeeded; and since the probe
outcome is sampled per query, a failing probe on any later query yields
503 with the probe's error even while the flag stays true. -/
theorem readyz_gating :
    (∀ (hasPinger : Bool) (pingErr : Option String),
        (handleReadyz true false hasPinger pingErr).status = 503) ∧
    (∀ (ready : Bool) (pingErr : Option String),
        handleReadyz true ready true pingErr =
          { status := 200, body := .statusJson "ready" } ↔
          ready = true ∧ pingErr = none) ∧
    (∀ (e : String),
        handleReadyz true true true (Ping (Except.error e)) =
          { status := 503,
            body := .text ("kubernetes connectivity check failed: " ++ e) }) := by
  refine ⟨fun hasPinger pingErr => rfl, ?_, fun e => rfl⟩
  intro ready pingErr
  cases ready <;> cases pingErr <;> simp [handleReadyz]

theorem readyz_gating_witness :
    (handleReadyz true false true none).status = 503 ∧
    handleReadyz true true true (Ping (Except.error "boom")) =
      { status := 503,
        body := .text ("kubernetes connectivity check failed: " ++ "boom") } :=
  ⟨readyz_gating.1 true none, readyz_gating.2.2 "boom"⟩

/-- Claim C6: the get-replicas route answers 404 exactly when the name is
unknown to the cache, and 200 with the cached name and count when it is
known — an unknown name is never answered with zero replicas. -/
theorem get_replicas_route :
    ∀ (m : ReplicaMap) (name : String),
      ((handleGetReplicas name (GetReplicas m name)).status = 404 ↔
        mapGet m name = none) ∧
      (mapGet m name = none →
        handleGetReplicas name (GetReplicas m name) =
          { status := 404, body := .text "deployment not found" }) ∧
      (∀ v : Int, mapGet m name = some v →
        handleGetReplicas name (GetReplicas m name) =
          { status := 200, body := .replicasJson name v }) := by
  intro m name
  cases h : mapGet m name with
  | none => simp [handleGetReplicas, GetReplicas, h]
  | some v => simp [handleGetReplicas, GetReplicas, h]

theorem get_replicas_route_witness :
    handleGetReplicas "frontend" (GetReplicas [("frontend", 3)] "frontend") =
      { status := 200, body := .replicasJson "frontend" 3 } ∧
    handleGetReplicas "ghost" (GetReplicas [("frontend", 3)] "ghost") =
      { status := 404, body := .text "deployment not found" } :=
  ⟨(get_replicas_route [("frontend", 3)] "frontend").2.2 3 rfl,
   (get_replicas_route [("frontend", 3)] "ghost").2.1 rfl⟩

/-- Claim C7: the set-replicas route answers 400 when the body's first
JSON value is malformed, holds an unknown field, is followed by trailing
data, or decodes to a negative replica count; in every one of those cases
— the negative-replicas case in particular — the store's `SetReplicas` is
never called. -/
theorem set_replicas_validation :
    (∀ (name : String) (cluster : ClusterSetOutcome),
        handleSetReplicas name .malformed cluster =
          ({ status := 400, body := .text "invalid json body" }, false)) ∧
    (∀ (name : String) (cluster : ClusterSetOutcome),
        handleSetReplicas name .unknownField cluster =
          ({ status := 400, body := .text "invalid json body" }, false)) ∧
    (∀ (name : String) (cluster : ClusterSetOutcome) (r : Int),
        handleSetReplicas name (.value r true) cluster =
          ({ status := 400, body := .text "invalid json body" }, false)) ∧
    (∀ (name : String) (cluster : ClusterSetOutcome) (r : Int) (t : Bool),
        r < 0 →
        (handleSetReplicas name (.value r t) cluster).1.status = 400 ∧
        (handleSetReplicas name (.value r t) cluster).2 = false) := by
  refine ⟨fun name cluster => rfl, fun name cluster => rfl,
    fun name cluster r => rfl, ?_⟩
  intro name cluster r t hr
  cases t <;>
    simp [handleSetReplicas, decodeSetReplicasRequest, hasTrailingJunk, hr]

theorem set_replicas_validation_witness :
    (handleSetReplicas "frontend" (.value (-1) false) .accepted).1.status =
      400 ∧
    (handleSetReplicas "frontend" (.value (-1) false) .accepted).2 = false :=
  set_replicas_validation.2.2.2 "frontend" .accepted (-1) false (by decide)

/-- Claim C3: a successfully built API TLS config pins the minimum
protocol version to 1.2 and demands a verified client certificate chaining
to the configured trust root, so a handshake with no certificate, an
untrusted certificate, or a protocol below 1.2 never yields an HTTP
response, while a trusted certificate at version ≥ 1.2 yields the normal
response. -/
theorem tls_config_enforces_mtls :
    ∀ (i : TLSBuildInputs) (cfg : TLSConfig),
      buildTLSConfig i = Except.ok cfg →
      cfg.minVersion = versionTLS12 ∧
      cfg.clientAuth = ClientAuthType.requireAndVerifyClientCert ∧
      cfg.clientCAs = i.caCerts ∧
      (∀ (h : ClientHello) (resp : HttpResponse),
          h.clientCert = none → tlsServe cfg h resp = none) ∧
      (∀ (h : ClientHello) (resp : HttpResponse) (ca : String),
          h.clientCert = some ca → ca ∉ cfg.clientCAs →
          tlsServe cfg h resp = none) ∧
      (∀ (h : ClientHello) (resp : HttpResponse),
          h.version < versionTLS12 → tlsServe cfg h resp = none) ∧
      (∀ (h : ClientHello) (resp : HttpResponse) (ca : String),
          versionTLS12 ≤ h.version → h.clientCert = some ca →
          ca ∈ cfg.clientCAs → tlsServe cfg h resp = some resp) := by
  intro i cfg hok
  unfold buildTLSConfig at hok
  split at hok
  · exact absurd hok (by simp)
  · split at hok
    · exact absurd hok (by simp)
    · split at hok
      · exact absurd hok (by simp)
      · injection hok with hok
        subst hok
        refine ⟨rfl, rfl, rfl, ?_, ?_, ?_, ?_⟩
        · intro h resp hc
          simp [tlsServe, handshakeAccepts, hc]
        · intro h resp ca hc hmem
          simp [tlsServe, handshakeAccepts, hc, hmem]
        · intro h resp hv
          simp [tlsServe, handshakeAccepts, hv]
        · intro h resp ca hv hc hmem
          simp [tlsServe, handshakeAccepts, hc, hmem, Nat.not_lt.mpr hv]

theorem tls_config_enforces_mtls_witness :
    tlsServe
        { minVersion := versionTLS12, hasServerCert := true,
          clientCAs := ["root-ca"],
          clientAuth := ClientAuthType.requireAndVerifyClientCert }
        { version := versionTLS12, clientCert := some "root-ca" }
        { status := 200, body := .statusJson "ok" } =
      some { status := 200, body := .statusJson "ok" } ∧
    tlsServe
        { minVersion := versionTLS12, hasServerCert := true,
          clientCAs := ["root-ca"],
          clientAuth := ClientAuthType.requireAndVerifyClientCert }
        { version := versionTLS12, clientCert := none }
        { status := 200, body := .statusJson "ok" } = none := by
  have h := tls_config_enforces_mtls
    { keyPairOk := true, caFileOk := true, caCerts := ["root-ca"] }
    { minVersion := versionTLS12, hasServerCert := true,
      clientCAs := ["root-ca"],
      clientAuth := ClientAuthType.requireAndVerifyClientCert } rfl
  exact ⟨h.2.2.2.2.2.2 _ _ "root-ca" (le_refl _) rfl (by decide),
         h.2.2.2.1 _ _ rfl⟩

end ReplicaManager
